import Mathlib

/-!
Shallow embedding of the page-synchronization core of the chat7v source
viewer (src/App.tsx).  The component keeps three surfaces (text panel,
embedded renderer, external popup window) agreed on a single current page.
We embed:

* the page estimator and chunk grouping (`chunksByPage`, App.tsx:832-863),
* the derived UI page bound (`maxPdfPage` / `totalPages`, App.tsx:866-885),
* page navigation and clamping (App.tsx:1343-1387, 1761-1769),
* the viewport-observer suppression machinery (App.tsx:1546-1551, 1373-1387),
* the search session (`handleSearchSubmit`, App.tsx:1297-1327),
* the external window bridge (`handleReferenceClick`, App.tsx:310-406).

JavaScript numbers are modelled by `Nat` (page numbers, indices, chunk
counts never go negative in the embedded fragment) or `Int` where the
source can produce negative values (typed page input, search cursor which
starts at -1).  The one place the program's IEEE-double arithmetic is not
integer-exact - the proportional page estimate
Math.floor((index / chunks.length) * documentTotalPages) at App.tsx:845 -
is modelled by an exact emulation of binary64 round-to-nearest-even
(`fl64`/`jsEstimate` below), because the double rounding of the quotient
and the product changes the floor at realistic inputs.  A chunk whose
metadata lacks a page is modelled by page 0, matching the source's own
normalization (chunk.metadata?.page || 0).
-/

namespace Chat7v

/-- A stored fragment of a document's text, as used by the viewer:
identity, text content, and the metadata page number where 0 means
missing/untrustworthy (the source normalizes with chunk.metadata?.page || 0). -/
structure PDFChunk where
  id : String
  content : String
  page : Nat
  deriving DecidableEq, Repr

/-- App.tsx:836 - all chunks report a zero/absent page (and the list is
non-empty): metadata is globally untrustworthy. -/
def allPagesZero (chunks : List PDFChunk) : Bool :=
  decide (chunks.length > 0) && chunks.all (fun c => c.page == 0)

/-- Round-to-nearest, ties-to-even of the rational num / den (den > 0):
the integer nearest to num / den, picking the even one on a tie.  This is
the rounding IEEE 754 applies to the exact result of every operation. -/
def rne (num den : Nat) : Nat :=
  let q := num / den
  let r := num % den
  if 2 * r < den then q
  else if den < 2 * r then q + 1
  else if q % 2 = 0 then q else q + 1

/-- Fuel-driven floor base-2 logarithm; structural recursion on the fuel so
that the kernel can evaluate it (Nat.log2 uses well-founded recursion). -/
def natLog2Aux : Nat → Nat → Nat
  | 0, _ => 0
  | fuel + 1, n => if 2 ≤ n then natLog2Aux fuel (n / 2) + 1 else 0

/-- Floor of the base-2 logarithm of n (0 for n = 0 or 1); n itself is
always enough fuel. -/
def natLog2 (n : Nat) : Nat := natLog2Aux n n

/-- Floor of the base-2 logarithm of the rational a / b (a, b > 0): the
unique e with 2 ^ e ≤ a / b < 2 ^ (e + 1). -/
def ratFloorLog2 (a b : Nat) : Int :=
  let la := natLog2 a
  let lb := natLog2 b
  if b * 2 ^ la ≤ a * 2 ^ lb then (la : Int) - (lb : Int)
  else (la : Int) - (lb : Int) - 1

/-- IEEE binary64 rounding (round-to-nearest, ties-to-even) of the positive
rational a / b, as a pair (mantissa, exponent) whose value is
mantissa * 2 ^ (exponent - 52) with mantissa in [2^52, 2^53].  Normal
range only: the magnitudes this program produces (quotients in [2^-53, 1),
products below 2^53) are far inside it, so no subnormal or overflow
handling is needed. -/
def fl64 (a b : Nat) : Nat × Int :=
  let e := ratFloorLog2 a b
  if 0 ≤ 52 - e then (rne (a * 2 ^ (52 - e).toNat) b, e)
  else (rne a (b * 2 ^ (e - 52).toNat), e)

/-- Math.floor of the binary64 value mantissa * 2 ^ (exponent - 52). -/
def floorFl64 (p : Nat × Int) : Nat :=
  if 52 ≤ p.2 then p.1 * 2 ^ (p.2 - 52).toNat
  else p.1 / 2 ^ (52 - p.2).toNat

/-- App.tsx:845 - Math.floor((index / chunkCount) * documentTotalPages) as
the program computes it, in IEEE doubles: the quotient index / chunkCount
is rounded to the nearest double, the product with totalPages is rounded to
the nearest double (IEEE division and multiplication are exactly the
rounding of the exact rational result), then the floor is exact.  The
double rounding can land one below the exact rational floor (10 chunks,
90 pages, index 7: exact 63, doubles 62). -/
def jsEstimate (index chunkCount totalPages : Nat) : Nat :=
  if index = 0 then 0
  else
    let q := fl64 index chunkCount
    let p :=
      if 0 ≤ 52 - q.2 then fl64 (q.1 * totalPages) (2 ^ (52 - q.2).toNat)
      else fl64 (q.1 * totalPages * 2 ^ (q.2 - 52).toNat) 1
    floorFl64 p

/-- App.tsx:838-854 - the page resolved for the chunk at position
index in the chunk list.  If every chunk reports page 0 the page is
estimated: proportionally when the declared total page count is known
(Math.floor((index / chunkCount) * totalPages) + 1 in IEEE doubles, capped
at totalPages), otherwise three chunks per page (floor(index / 3) + 1,
which is float-exact at every reachable index).  Otherwise the chunk's own
metadata page (chunk.metadata?.page || 0) is used. -/
def resolvePage (chunks : List PDFChunk) (documentTotalPages : Nat)
    (index : Nat) (c : PDFChunk) : Nat :=
  if allPagesZero chunks then
    if documentTotalPages > 0 then
      min (jsEstimate index chunks.length documentTotalPages + 1) documentTotalPages
    else
      index / 3 + 1
  else
    c.page

/-- App.tsx:832-863 - the (index, chunk) pairs grouped under page key p.
The source pushes chunks into grouped[pageNum] in index order, so the
group for p is the ordered sublist of chunks resolving to p. -/
def pageGroupPairs (chunks : List PDFChunk) (documentTotalPages : Nat)
    (p : Nat) : List (Nat × PDFChunk) :=
  chunks.enum.filter (fun ic => resolvePage chunks documentTotalPages ic.1 ic.2 == p)

/-- The chunks of page group p, in insertion (= ordinal) order. -/
def chunksByPage (chunks : List PDFChunk) (documentTotalPages : Nat)
    (p : Nat) : List PDFChunk :=
  (pageGroupPairs chunks documentTotalPages p).map Prod.snd

/-- App.tsx:867-868 - the largest key of the partition
(Math.max over Object.keys(chunksByPage), 0 when there are no chunks). -/
def maxGroupKey (chunks : List PDFChunk) (documentTotalPages : Nat) : Nat :=
  (chunks.enum.map (fun ic => resolvePage chunks documentTotalPages ic.1 ic.2)).foldr max 0

/-- App.tsx:878-882 - the number of distinct page keys
(pdfPageNumbers.length). -/
def numPageKeys (chunks : List PDFChunk) (documentTotalPages : Nat) : Nat :=
  ((chunks.enum.map (fun ic => resolvePage chunks documentTotalPages ic.1 ic.2)).dedup).length

/-- App.tsx:866-875 - the maxPdfPage state at steady state (initial value 0):
the largest group key when positive, else the declared total page count
when positive, else 0. -/
def maxPdfPage (chunks : List PDFChunk) (documentTotalPages : Nat) : Nat :=
  let maxPage := maxGroupKey chunks documentTotalPages
  if maxPage > 0 then maxPage
  else if documentTotalPages > 0 then documentTotalPages
  else 0

/-- App.tsx:885 - the page bound shown by the UI:
documentTotalPages > 0 ? documentTotalPages : (maxPdfPage || pdfPageNumbers.length). -/
def totalPagesUI (chunks : List PDFChunk) (documentTotalPages : Nat) : Nat :=
  if documentTotalPages > 0 then documentTotalPages
  else if maxPdfPage chunks documentTotalPages ≠ 0 then maxPdfPage chunks documentTotalPages
  else numPageKeys chunks documentTotalPages

/-- App.tsx:1766-1768 - the page-number input handler:
onPdfPageChange(Math.min(Math.max(1, v), Math.max(1, totalPages))).
The typed value is an Int because parseInt can return any integer. -/
def clampPageInput (v : Int) (totalPages : Nat) : Int :=
  min (max 1 v) (max 1 (totalPages : Int))

/-- App.tsx:1343-1355 - findNearestPageWithChunks: if startPage already has
chunks return it; otherwise scan towards totalPages (dirNext = true) or
down towards 1 (dirNext = false) for the first page with chunks; fall back
to startPage. -/
def findNearestPageWithChunks (chunks : List PDFChunk) (documentTotalPages : Nat)
    (totalPages : Nat) (startPage : Nat) (dirNext : Bool) : Nat :=
  if (chunksByPage chunks documentTotalPages startPage).length > 0 then startPage
  else
    let candidates :=
      if dirNext then List.range' (startPage + 1) (totalPages - startPage)
      else (List.range' 1 (startPage - 1)).reverse
    match candidates.find?
        (fun p => decide ((chunksByPage chunks documentTotalPages p).length > 0)) with
    | some p => p
    | none => startPage

/-- App.tsx:1373-1376 - target of a next-page click: clamp the requested
page to totalPages, then skip forward to the nearest page with chunks. -/
def nextPageTarget (chunks : List PDFChunk) (documentTotalPages : Nat)
    (cur : Nat) : Nat :=
  let tp := totalPagesUI chunks documentTotalPages
  findNearestPageWithChunks chunks documentTotalPages tp (min tp (cur + 1)) true

/-- App.tsx:1357-1360 - target of a previous-page click: clamp the requested
page to at least 1, then skip backward to the nearest page with chunks. -/
def prevPageTarget (chunks : List PDFChunk) (documentTotalPages : Nat)
    (cur : Nat) : Nat :=
  let tp := totalPagesUI chunks documentTotalPages
  findNearestPageWithChunks chunks documentTotalPages tp (max 1 (cur - 1)) false

/-- App.tsx:1368-1370 - the fixed cooldown (ms) after which a programmatic
page move re-enables the viewport observer. -/
def observerCooldownMs : Nat := 400

/-- The primitive effects a navigation handler performs, in program order. -/
inductive UiAction where
  | setSuppress : Bool → UiAction
  | applyPage : Nat → UiAction
  | scheduleScroll : Nat → UiAction
  | scheduleClearSuppress : Nat → UiAction
  deriving DecidableEq, Repr

/-- App.tsx:1373-1387 - the effect sequence of handleNextPage: nothing when
the target equals the current page; otherwise set the suppression flag,
apply the new page, schedule the programmatic scroll, and schedule the
suppression clear after the cooldown - in that order. -/
def handleNextPageActions (chunks : List PDFChunk) (documentTotalPages : Nat)
    (cur : Nat) : List UiAction :=
  let target := nextPageTarget chunks documentTotalPages cur
  if target = cur then []
  else [UiAction.setSuppress true, UiAction.applyPage target,
        UiAction.scheduleScroll target, UiAction.scheduleClearSuppress observerCooldownMs]

/-- App.tsx:1357-1371 - the effect sequence of handlePreviousPage, mirroring
handleNextPage with the backward target. -/
def handlePrevPageActions (chunks : List PDFChunk) (documentTotalPages : Nat)
    (cur : Nat) : List UiAction :=
  let target := prevPageTarget chunks documentTotalPages cur
  if target = cur then []
  else [UiAction.setSuppress true, UiAction.applyPage target,
        UiAction.scheduleScroll target, UiAction.scheduleClearSuppress observerCooldownMs]

/-- The coordinator state: the shared current page, the observer-suppression
flag (suppressObserverRef), and the absolute time at which the pending
clear-suppression timer fires, if one is pending. -/
structure SyncState where
  currentPage : Nat
  suppress : Bool
  clearAt : Option Nat
  deriving DecidableEq, Repr

/-- App.tsx:1373-1387 - state transition of a next-page click at time now. -/
def stepNextClick (now : Nat) (chunks : List PDFChunk) (documentTotalPages : Nat)
    (s : SyncState) : SyncState :=
  let target := nextPageTarget chunks documentTotalPages s.currentPage
  if target = s.currentPage then s
  else { currentPage := target, suppress := true,
         clearAt := some (now + observerCooldownMs) }

/-- App.tsx:1384-1386 - the scheduled timer clearing the suppression flag
fires at time now (only once its deadline has passed). -/
def stepClearTimer (now : Nat) (s : SyncState) : SyncState :=
  match s.clearAt with
  | some t => if t ≤ now then { s with suppress := false, clearAt := none } else s
  | none => s

/-- App.tsx:1552-1564 - an intersection-entry batch reduced to the most
visible chunk: each entry is (isIntersecting, intersectionRatio, chunk);
the chunk with the strictly largest ratio among intersecting entries wins
(ratio modelled as a Nat, e.g. per-mille; only its order matters). -/
def mostVisible (entries : List (Bool × Nat × PDFChunk)) : Option PDFChunk :=
  (entries.foldl
    (fun acc e =>
      if e.1 && decide (e.2.1 > acc.2) then (some e.2.2, e.2.1) else acc)
    ((none : Option PDFChunk), 0)).1

/-- App.tsx:1568-1582, 1239-1244 - the page-group key holding the chunk with
the given id: the chunk's resolved page at its first occurrence. -/
def pageOfChunkId (chunks : List PDFChunk) (documentTotalPages : Nat)
    (cid : String) : Option Nat :=
  (chunks.enum.find? (fun ic => ic.2.id == cid)).map
    (fun ic => resolvePage chunks documentTotalPages ic.1 ic.2)

/-- App.tsx:1546-1583 - the observer callback as the page-change request it
(debounced) issues: none when the suppression flag is set, when no chunk is
visible, or when the most visible chunk's page equals the current page. -/
def observerRequest (chunks : List PDFChunk) (documentTotalPages : Nat)
    (suppress : Bool) (entries : List (Bool × Nat × PDFChunk))
    (cur : Nat) : Option Nat :=
  if suppress then none
  else
    match mostVisible entries with
    | none => none
    | some c =>
      match pageOfChunkId chunks documentTotalPages c.id with
      | none => none
      | some p => if p ≠ cur then some p else none

/-- JavaScript String.prototype.trim modelled on character lists: strip
whitespace from both ends. -/
def trimChars (s : List Char) : List Char :=
  ((s.dropWhile Char.isWhitespace).reverse.dropWhile Char.isWhitespace).reverse

/-- JavaScript String.prototype.toLowerCase modelled on character lists. -/
def lowerChars (s : List Char) : List Char := s.map Char.toLower

/-- App.tsx:1308 - case-insensitive substring match:
(c.content || '').toLowerCase().includes(query), where query is already
lower-cased. -/
def matchesQuery (query : List Char) (c : PDFChunk) : Bool :=
  decide (query <:+: lowerChars c.content.data)

/-- The search session: the ordered match list for the last executed query,
the cyclic cursor into it (-1 before any search), the last executed query
(trimmed and lower-cased, as stored by the source), and the transient
isSearching flag. -/
structure SearchState where
  searchResults : List PDFChunk
  currentSearchIndex : Int
  lastSearchQuery : List Char
  isSearching : Bool
  deriving DecidableEq, Repr

/-- App.tsx:1297-1327 - handleSearchSubmit: returns the updated session and
the navigation it performs (the match navigated to and its index), if any.
An empty trimmed query or an empty chunk list returns unchanged with no
navigation.  A query differing from the last executed one recomputes the
match list, resets the cursor to 0 and navigates to the first match when
one exists; re-submitting the same query advances the cursor by
(cursor + 1) mod matchCount and navigates to that match (when the stored
match list is non-empty).  isSearching is reset in the finally block. -/
def handleSearchSubmit (chunks : List PDFChunk) (searchText : List Char)
    (s : SearchState) : SearchState × Option (PDFChunk × Int) :=
  let query := lowerChars (trimChars searchText)
  if query = [] || chunks.isEmpty then (s, none)
  else
    let busy := { s with isSearching := true }
    let res :=
      if query ≠ s.lastSearchQuery then
        let found := chunks.filter (matchesQuery query)
        ({ busy with searchResults := found, currentSearchIndex := 0,
                     lastSearchQuery := query },
          match found with
          | [] => none
          | m :: _ => some (m, 0))
      else
        match busy.searchResults with
        | [] => (busy, none)
        | _ :: _ =>
          let n := (busy.currentSearchIndex + 1) % (busy.searchResults.length : Int)
          ({ busy with currentSearchIndex := n },
            (busy.searchResults.get? n.toNat).map (fun m => (m, n)))
    ({ res.1 with isSearching := false }, res.2)

/-- App.tsx:1236-1248 - the page a search navigation jumps to: the first
page-group key (in ascending key order, as Object.entries enumerates
integer keys) whose group holds the match's id, defaulting to 1. -/
def searchTargetPage (chunks : List PDFChunk) (documentTotalPages : Nat)
    (match0 : PDFChunk) : Nat :=
  match pageOfChunkId chunks documentTotalPages match0.id with
  | some p => p
  | none => 1

/-- The current page after a search submission: unchanged when the
submission performs no navigation, else the navigated match's page. -/
def pageAfterSearch (chunks : List PDFChunk) (documentTotalPages : Nat)
    (cur : Nat) (nav : Option (PDFChunk × Int)) : Nat :=
  match nav with
  | none => cur
  | some (m, _) => searchTargetPage chunks documentTotalPages m

/-- The component state the two asynchronous loads write into:
the chunk list, the declared total page count, and the shared current page
(pdfCurrentPage, held by the parent). -/
structure ViewerState where
  chunks : List PDFChunk
  documentTotalPages : Nat
  currentPage : Nat
  deriving DecidableEq, Repr

/-- App.tsx:1450-1456 - the document-metadata call resolves: the declared
total page count is stored (document.totalPages || 0).  Nothing else of the
page state is touched. -/
def resolveMetadata (tp : Nat) (s : ViewerState) : ViewerState :=
  { s with documentTotalPages := tp }

/-- App.tsx:1459-1460 - the chunk-list call resolves: the chunk list is
stored.  Nothing else of the page state is touched. -/
def resolveChunkList (cs : List PDFChunk) (s : ViewerState) : ViewerState :=
  { s with chunks := cs }

/-- The derived UI page bound of a viewer state (App.tsx:885). -/
def boundOf (s : ViewerState) : Nat := totalPagesUI s.chunks s.documentTotalPages

/-- An external renderer window reference; closed is the liveness bit the
source re-checks before every use (window.closed). -/
structure ExtWindow where
  closed : Bool
  deriving DecidableEq, Repr

/-- The observable effects of handleReferenceClick towards windows. -/
inductive BridgeAction where
  | postChangePage : Nat → List String → Option String → BridgeAction
  | focusExisting : BridgeAction
  | openWindow : Nat → BridgeAction
  | confirmFallback : BridgeAction
  deriving DecidableEq, Repr

/-- Is this action a postMessage of a changePage command? -/
def isPostChangePage : BridgeAction → Bool
  | BridgeAction.postChangePage _ _ _ => true
  | _ => false

/-- Is this action the opening of a new window? -/
def isOpenWindow : BridgeAction → Bool
  | BridgeAction.openWindow _ => true
  | _ => false

/-- App.tsx:310-406 - handleReferenceClick restricted to its window
handling: given the stored window reference (pdfViewerWindowRef) and the
result the popup open would produce (none = popup blocked), return the
action list performed, in program order, and the stored reference
afterwards.  A stored reference that is still live (not closed) receives
one changePage postMessage and is focused; no window is opened.  Otherwise
one window.open is attempted; on success the new reference is stored, on
failure the in-place fallback confirm dialog is offered. -/
def handleReferenceClick (existing : Option ExtWindow) (page : Nat)
    (highlight : List String) (searchSnippet : Option String)
    (popupResult : Option ExtWindow) : List BridgeAction × Option ExtWindow :=
  match existing with
  | some w =>
    if !w.closed then
      ([BridgeAction.postChangePage page highlight searchSnippet,
        BridgeAction.focusExisting], some w)
    else
      match popupResult with
      | some nw => ([BridgeAction.openWindow page], some nw)
      | none => ([BridgeAction.openWindow page, BridgeAction.confirmFallback], none)
  | none =>
    match popupResult with
    | some nw => ([BridgeAction.openWindow page], some nw)
    | none => ([BridgeAction.openWindow page, BridgeAction.confirmFallback], none)

/-! ### Concrete data used by witnesses and counterexamples -/

/-- n chunks all lacking page metadata (page 0). -/
def zeroChunks (n : Nat) : List PDFChunk :=
  List.replicate n { id := "", content := "", page := 0 }

/-- A chunk with no page metadata, next to one with metadata page 2. -/
def mixedChunkA : PDFChunk := { id := "a", content := "", page := 0 }

/-- A chunk with metadata page 2. -/
def mixedChunkB : PDFChunk := { id := "b", content := "", page := 2 }

/-- A chunk with metadata page 30 (beyond a declared count of 20). -/
def metaChunk30 : PDFChunk := { id := "m", content := "", page := 30 }

/-- A chunk with metadata page 1. -/
def pageOneChunk : PDFChunk := { id := "p1", content := "", page := 1 }

/-- A chunk with metadata page 5 (group keys 1 and 5 are not contiguous). -/
def pageFiveChunk : PDFChunk := { id := "p5", content := "", page := 5 }

/-- A chunk whose content contains the word hello. -/
def helloChunk : PDFChunk := { id := "h", content := "Say Hello there", page := 1 }

/-- A chunk whose content contains the word world. -/
def worldChunk : PDFChunk := { id := "w", content := "World peace", page := 2 }

/-! ### Claims about the page estimator and the partition -/

/-- If allPagesZero holds then the chunk list is non-empty and every chunk
reports page 0. -/
theorem allPagesZero_spec (chunks : List PDFChunk)
    (hz : allPagesZero chunks = true) :
    0 < chunks.length ∧ ∀ c ∈ chunks, c.page = 0 := by
  unfold allPagesZero at hz
  simp only [Bool.and_eq_true, decide_eq_true_eq, List.all_eq_true, beq_iff_eq] at hz
  exact hz

/-- If some chunk reports a nonzero page then allPagesZero is false. -/
theorem allPagesZero_eq_false_of_nonzero (chunks : List PDFChunk)
    (c0 : PDFChunk) (hc0 : c0 ∈ chunks) (hp : c0.page ≠ 0) :
    allPagesZero chunks = false := by
  unfold allPagesZero
  rcases h : chunks.all (fun c => c.page == 0) with _ | _
  · simp
  · exfalso
    simp only [List.all_eq_true, beq_iff_eq] at h
    exact hp (h c0 hc0)

/-- C2: if at least one chunk of the document carries a nonzero page number,
then every chunk (at every index) is resolved to its own metadata page
(chunk.page || 0) and no estimation is applied. -/
theorem C2_all_or_nothing_metadata
    (chunks : List PDFChunk) (documentTotalPages index : Nat) (c : PDFChunk)
    (h : ∃ c0 ∈ chunks, c0.page ≠ 0) :
    resolvePage chunks documentTotalPages index c = c.page := by
  obtain ⟨c0, hc0, hp⟩ := h
  unfold resolvePage
  rw [allPagesZero_eq_false_of_nonzero chunks c0 hc0 hp]
  simp

/-- Witness for C2: in a document holding a metadata-free chunk next to one
with page 2, each chunk resolves to its own stored page (0 and 2). -/
theorem C2_all_or_nothing_metadata_witness :
    resolvePage [mixedChunkA, mixedChunkB] 7 0 mixedChunkA = mixedChunkA.page ∧
    resolvePage [mixedChunkA, mixedChunkB] 7 1 mixedChunkB = mixedChunkB.page :=
  ⟨C2_all_or_nothing_metadata [mixedChunkA, mixedChunkB] 7 0 mixedChunkA
      ⟨mixedChunkB, by decide, by decide⟩,
   C2_all_or_nothing_metadata [mixedChunkA, mixedChunkB] 7 1 mixedChunkB
      ⟨mixedChunkB, by decide, by decide⟩⟩

/-- C3 counterexample: the claim's exact-arithmetic formula
floor(index / chunkCount * totalPages) + 1 clamped to [1, totalPages]
disagrees with the program at realistic inputs, because the program
evaluates the expression in IEEE doubles.  With 10 metadata-free chunks and
90 declared pages, index 7 gives (7/10)*90 = 62.99999999999999... in
doubles, so the code resolves page 63 while the exact formula gives
floor(63) + 1 = 64; likewise 11 chunks, 55 pages, index 3: code 15,
exact formula 16. -/
theorem C3_counterexample_double_rounding :
    resolvePage (zeroChunks 10) 90 7 { id := "", content := "", page := 0 } = 63 ∧
    max 1 (min (7 * 90 / 10 + 1) 90) = 64 ∧
    resolvePage (zeroChunks 10) 90 7 { id := "", content := "", page := 0 }
      ≠ max 1 (min (7 * 90 / 10 + 1) 90) ∧
    resolvePage (zeroChunks 11) 55 3 { id := "", content := "", page := 0 } = 15 ∧
    max 1 (min (3 * 55 / 11 + 1) 55) = 16 := by decide

/-- C3 amended: when every chunk reports page 0, the chunk at index i
resolves to floor(x) + 1 clamped to [1, totalPages] when the declared count
is positive, where x is the IEEE-double evaluation of
(i / chunkCount) * totalPages (quotient and product each rounded to the
nearest double, which can floor one below the exact rational value), and to
floor(i / 3) + 1 when the declared count is 0.  The claim's concrete
scenarios (10 chunks / 5 pages, 7 chunks / 0 pages) hold unchanged, being
float-exact; they are checked in the witness. -/
theorem C3_amended_estimation_formulas
    (chunks : List PDFChunk) (documentTotalPages index : Nat) (c : PDFChunk)
    (hz : allPagesZero chunks = true) :
    (0 < documentTotalPages →
       resolvePage chunks documentTotalPages index c
         = max 1 (min (jsEstimate index chunks.length documentTotalPages + 1)
                      documentTotalPages)) ∧
    resolvePage chunks 0 index c = index / 3 + 1 := by
  constructor
  · intro hp
    unfold resolvePage
    simp only [hz, if_true, hp, if_pos]
    generalize jsEstimate index chunks.length documentTotalPages = k
    omega
  · unfold resolvePage
    simp [hz]

/-- Witness for C3 amended: with 10 metadata-free chunks and a declared
count of 5, index 0 resolves to page 1 and index 9 to page 5; with 7
metadata-free chunks and declared count 0, indices 0-2 resolve to page 1,
3-5 to page 2, and 6 to page 3. -/
theorem C3_amended_estimation_formulas_witness :
    resolvePage (zeroChunks 10) 5 0 { id := "", content := "", page := 0 } = 1 ∧
    resolvePage (zeroChunks 10) 5 9 { id := "", content := "", page := 0 } = 5 ∧
    resolvePage (zeroChunks 7) 0 0 { id := "", content := "", page := 0 } = 1 ∧
    resolvePage (zeroChunks 7) 0 2 { id := "", content := "", page := 0 } = 1 ∧
    resolvePage (zeroChunks 7) 0 3 { id := "", content := "", page := 0 } = 2 ∧
    resolvePage (zeroChunks 7) 0 5 { id := "", content := "", page := 0 } = 2 ∧
    resolvePage (zeroChunks 7) 0 6 { id := "", content := "", page := 0 } = 3 := by
  have h0 := (C3_amended_estimation_formulas (zeroChunks 10) 5 0
      { id := "", content := "", page := 0 } (by decide)).1 (by decide)
  have h9 := (C3_amended_estimation_formulas (zeroChunks 10) 5 9
      { id := "", content := "", page := 0 } (by decide)).1 (by decide)
  have f0 := (C3_amended_estimation_formulas (zeroChunks 7) 9 0
      { id := "", content := "", page := 0 } (by decide)).2
  have f2 := (C3_amended_estimation_formulas (zeroChunks 7) 9 2
      { id := "", content := "", page := 0 } (by decide)).2
  have f3 := (C3_amended_estimation_formulas (zeroChunks 7) 9 3
      { id := "", content := "", page := 0 } (by decide)).2
  have f5 := (C3_amended_estimation_formulas (zeroChunks 7) 9 5
      { id := "", content := "", page := 0 } (by decide)).2
  have f6 := (C3_amended_estimation_formulas (zeroChunks 7) 9 6
      { id := "", content := "", page := 0 } (by decide)).2
  refine ⟨?_, ?_, ?_, ?_, ?_, ?_, ?_⟩
  · rw [h0]; decide
  · rw [h9]; decide
  · rw [f0]
  · rw [f2]
  · rw [f3]
  · rw [f5]
  · rw [f6]

/-- C4 counterexample: in a document mixing a metadata-free chunk (page 0)
with a chunk reporting page 2, the metadata path resolves the first chunk
to page 0, violating the claimed lower bound of 1. -/
theorem C4_counterexample_page_zero :
    resolvePage [mixedChunkA, mixedChunkB] 7 0 mixedChunkA = 0 ∧
    ¬ (1 ≤ resolvePage [mixedChunkA, mixedChunkB] 7 0 mixedChunkA) := by decide

/-- C4 amended: the resolved page is at least 1 whenever estimation applies
(all chunks report page 0) or the chunk's own metadata page is nonzero;
a chunk with zero/absent page in a document with some nonzero metadata
resolves to 0. -/
theorem C4_amended_resolved_page_pos
    (chunks : List PDFChunk) (documentTotalPages index : Nat) (c : PDFChunk)
    (h : allPagesZero chunks = true ∨ c.page ≠ 0) :
    1 ≤ resolvePage chunks documentTotalPages index c := by
  unfold resolvePage
  rcases hz : allPagesZero chunks with _ | _
  · simp only [Bool.false_eq_true, if_false]
    rcases h with h | h
    · exact absurd hz (by simp [h])
    · omega
  · simp only [if_true]
    rcases hdt : documentTotalPages with _ | d
    · simp [hdt]
    · have hd : 0 < d + 1 := Nat.succ_pos d
      simp only [hd, if_pos]
      generalize jsEstimate index chunks.length (d + 1) = k
      omega

/-- Witness for C4 amended: estimation on two metadata-free chunks gives a
page of at least 1, and a chunk with metadata page 2 resolves to at least 1. -/
theorem C4_amended_resolved_page_pos_witness :
    1 ≤ resolvePage (zeroChunks 2) 0 0 { id := "", content := "", page := 0 } ∧
    1 ≤ resolvePage [mixedChunkA, mixedChunkB] 7 1 mixedChunkB :=
  ⟨C4_amended_resolved_page_pos (zeroChunks 2) 0 0 _ (Or.inl (by decide)),
   C4_amended_resolved_page_pos [mixedChunkA, mixedChunkB] 7 1 mixedChunkB
     (Or.inr (by decide))⟩

/-- C9: the page grouping is a partition of the indexed chunk list: a pair
(index, chunk) lies in the group of key p exactly when it is one of the
document's indexed chunks and its resolved page is p, and every indexed
chunk lies in exactly one page group. -/
theorem C9_grouping_is_partition
    (chunks : List PDFChunk) (documentTotalPages : Nat) :
    (∀ p ic, ic ∈ pageGroupPairs chunks documentTotalPages p ↔
        (ic ∈ chunks.enum ∧ resolvePage chunks documentTotalPages ic.1 ic.2 = p)) ∧
    (∀ ic ∈ chunks.enum, ∃! p, ic ∈ pageGroupPairs chunks documentTotalPages p) := by
  have hmem : ∀ p ic, ic ∈ pageGroupPairs chunks documentTotalPages p ↔
      (ic ∈ chunks.enum ∧ resolvePage chunks documentTotalPages ic.1 ic.2 = p) := by
    intro p ic
    unfold pageGroupPairs
    rw [List.mem_filter]
    simp
  refine ⟨hmem, ?_⟩
  intro ic hic
  exact ⟨resolvePage chunks documentTotalPages ic.1 ic.2,
    (hmem _ _).2 ⟨hic, rfl⟩,
    fun q hq => ((hmem q ic).1 hq).2.symm⟩

/-- Witness for C9: in a document whose chunks carry pages 1 and 5, each
indexed chunk lies in exactly one group, and the keys are not contiguous:
group 1 and group 5 are inhabited while groups 2-4 are empty. -/
theorem C9_grouping_is_partition_witness :
    (∃! p, (⟨1, pageFiveChunk⟩ : Nat × PDFChunk)
        ∈ pageGroupPairs [pageOneChunk, pageFiveChunk] 0 p) ∧
    chunksByPage [pageOneChunk, pageFiveChunk] 0 1 = [pageOneChunk] ∧
    chunksByPage [pageOneChunk, pageFiveChunk] 0 2 = [] ∧
    chunksByPage [pageOneChunk, pageFiveChunk] 0 5 = [pageFiveChunk] := by
  refine ⟨(C9_grouping_is_partition [pageOneChunk, pageFiveChunk] 0).2
      ⟨1, pageFiveChunk⟩ (by decide), by decide, by decide, by decide⟩

/-! ### Claims about the UI page bound and clamping -/

/-- The nearest-page search in the next direction stays within
[1, totalPages] when its start page does. -/
theorem findNearest_next_bounds
    (chunks : List PDFChunk) (documentTotalPages totalPages startPage : Nat)
    (h1 : 1 ≤ startPage) (h2 : startPage ≤ totalPages) :
    1 ≤ findNearestPageWithChunks chunks documentTotalPages totalPages startPage true ∧
    findNearestPageWithChunks chunks documentTotalPages totalPages startPage true
      ≤ totalPages := by
  unfold findNearestPageWithChunks
  split
  · exact ⟨h1, h2⟩
  · dsimp only
    split
    · rename_i p hf
      have hp := List.mem_of_find?_eq_some hf
      simp [List.mem_range'_1] at hp
      omega
    · exact ⟨h1, h2⟩

/-- The nearest-page search in the previous direction stays within
[1, totalPages] when its start page does. -/
theorem findNearest_prev_bounds
    (chunks : List PDFChunk) (documentTotalPages totalPages startPage : Nat)
    (h1 : 1 ≤ startPage) (h2 : startPage ≤ totalPages) :
    1 ≤ findNearestPageWithChunks chunks documentTotalPages totalPages startPage false ∧
    findNearestPageWithChunks chunks documentTotalPages totalPages startPage false
      ≤ totalPages := by
  unfold findNearestPageWithChunks
  split
  · exact ⟨h1, h2⟩
  · dsimp only
    split
    · rename_i p hf
      have hp := List.mem_of_find?_eq_some hf
      simp [List.mem_reverse, List.mem_range'_1] at hp
      omega
    · exact ⟨h1, h2⟩

/-- C1 counterexample: a document whose single chunk carries metadata page
30 while the declared total page count is 20.  The largest partition key is
30, so the claimed bound max(30, 20) is 30, but the code's UI bound is the
declared count 20. -/
theorem C1_counterexample_bound :
    maxGroupKey [metaChunk30] 20 = 30 ∧
    totalPagesUI [metaChunk30] 20 = 20 ∧
    totalPagesUI [metaChunk30] 20 ≠ max (maxGroupKey [metaChunk30] 20) 20 := by decide

/-- C1 amended: the UI page bound is the declared total page count when that
is positive (regardless of the partition keys), and otherwise the largest
partition key (or the number of page groups when no key is positive).
Every typed page request is clamped into [1, bound]: a request of 0 or less
yields 1, a request beyond the bound yields the bound, an in-range request
is kept; and previous/next navigation from an in-range page lands in
[1, bound]. -/
theorem C1_amended_bound_and_clamping
    (chunks : List PDFChunk) (documentTotalPages : Nat) (v : Int) (cur : Nat)
    (hcur1 : 1 ≤ cur) (hcur2 : cur ≤ totalPagesUI chunks documentTotalPages) :
    (0 < documentTotalPages →
        totalPagesUI chunks documentTotalPages = documentTotalPages) ∧
    (documentTotalPages = 0 → 0 < maxGroupKey chunks 0 →
        totalPagesUI chunks documentTotalPages = maxGroupKey chunks 0) ∧
    (v ≤ 0 → clampPageInput v (totalPagesUI chunks documentTotalPages) = 1) ∧
    ((totalPagesUI chunks documentTotalPages : Int) < v →
        clampPageInput v (totalPagesUI chunks documentTotalPages)
          = (totalPagesUI chunks documentTotalPages : Int)) ∧
    (1 ≤ v → v ≤ (totalPagesUI chunks documentTotalPages : Int) →
        clampPageInput v (totalPagesUI chunks documentTotalPages) = v) ∧
    (1 ≤ nextPageTarget chunks documentTotalPages cur ∧
        nextPageTarget chunks documentTotalPages cur
          ≤ totalPagesUI chunks documentTotalPages) ∧
    (1 ≤ prevPageTarget chunks documentTotalPages cur ∧
        prevPageTarget chunks documentTotalPages cur
          ≤ totalPagesUI chunks documentTotalPages) := by
  have htp : 1 ≤ totalPagesUI chunks documentTotalPages := le_trans hcur1 hcur2
  refine ⟨?_, ?_, ?_, ?_, ?_, ?_, ?_⟩
  · intro h
    unfold totalPagesUI
    simp [h]
  · intro h0 hkey
    unfold totalPagesUI maxPdfPage
    simp only [h0]
    simp [hkey, Nat.pos_iff_ne_zero.mp hkey]
  · intro hv
    unfold clampPageInput
    omega
  · intro hv
    unfold clampPageInput
    omega
  · intro hv1 hv2
    unfold clampPageInput
    omega
  · unfold nextPageTarget
    exact findNearest_next_bounds chunks documentTotalPages _ _ (by omega) (by omega)
  · unfold prevPageTarget
    exact findNearest_prev_bounds chunks documentTotalPages _ _ (by omega) (by omega)

/-- Witness for C1 amended: with two chunks on pages 1 and 2 and an unknown
declared count, the bound is 2; typing 0 yields page 1, typing 9 yields
page 2, typing 2 keeps 2, and next/prev from page 1 stay in [1, 2]. -/
theorem C1_amended_bound_and_clamping_witness :
    clampPageInput 0 (totalPagesUI [pageOneChunk, mixedChunkB] 0) = 1 ∧
    clampPageInput 9 (totalPagesUI [pageOneChunk, mixedChunkB] 0)
      = (totalPagesUI [pageOneChunk, mixedChunkB] 0 : Int) ∧
    clampPageInput 2 (totalPagesUI [pageOneChunk, mixedChunkB] 0) = 2 ∧
    1 ≤ nextPageTarget [pageOneChunk, mixedChunkB] 0 1 ∧
    nextPageTarget [pageOneChunk, mixedChunkB] 0 1
      ≤ totalPagesUI [pageOneChunk, mixedChunkB] 0 := by
  have h := C1_amended_bound_and_clamping [pageOneChunk, mixedChunkB] 0 0 1
      (by decide) (by decide)
  have h9 := C1_amended_bound_and_clamping [pageOneChunk, mixedChunkB] 0 9 1
      (by decide) (by decide)
  have h2 := C1_amended_bound_and_clamping [pageOneChunk, mixedChunkB] 0 2 1
      (by decide) (by decide)
  refine ⟨h.2.2.1 (by decide), h9.2.2.2.1 (by decide), ?_, h.2.2.2.2.2.1⟩
  exact h2.2.2.2.2.1 (by decide) (by decide)

/-! ### Claim about late-resolving document metadata -/

/-- C5 counterexample: a viewer showing page 30 with chunks already loaded
and an unknown declared count; the metadata then resolves to 20.  The
derived bound becomes 20 but the current page stays 30, exceeding the
corrected bound instead of being clamped to it. -/
theorem C5_counterexample_no_clamp :
    boundOf (resolveMetadata 20
        { chunks := [{ id := "", content := "", page := 0 }],
          documentTotalPages := 0, currentPage := 30 }) = 20 ∧
    (resolveMetadata 20
        { chunks := [{ id := "", content := "", page := 0 }],
          documentTotalPages := 0, currentPage := 30 }).currentPage = 30 ∧
    ¬ ((resolveMetadata 20
        { chunks := [{ id := "", content := "", page := 0 }],
          documentTotalPages := 0, currentPage := 30 }).currentPage
        ≤ boundOf (resolveMetadata 20
        { chunks := [{ id := "", content := "", page := 0 }],
          documentTotalPages := 0, currentPage := 30 })) := by decide

/-- C5 amended: whichever of the two loads resolves last, the derived page
bound is the same function of the final chunk list and declared count
(retroactive correction, no required ordering), but neither resolution
touches the current page: it is left unchanged even when it exceeds the
corrected bound. -/
theorem C5_amended_retroactive_bounds
    (cs : List PDFChunk) (tp : Nat) (s : ViewerState) :
    boundOf (resolveMetadata tp (resolveChunkList cs s)) = totalPagesUI cs tp ∧
    boundOf (resolveChunkList cs (resolveMetadata tp s)) = totalPagesUI cs tp ∧
    (resolveMetadata tp s).currentPage = s.currentPage ∧
    (resolveChunkList cs s).currentPage = s.currentPage :=
  ⟨rfl, rfl, rfl, rfl⟩

/-! ### Claim about the suppression window -/

/-- C6: while the suppression flag is set, every observer batch yields no
page-change request; a next-page (and previous-page) navigation that moves
the page performs setSuppress true as its first effect, before applying the
page and scheduling the scroll, and schedules the clear after the fixed
cooldown (400 ms, within the stated 300-400 ms); the clear timer firing
before the deadline leaves the flag set and observations still ignored,
while once fired at or after the deadline the flag is cleared and
observations pass through the normal (unsuppressed) path again. -/
theorem C6_suppression_window
    (chunks : List PDFChunk) (documentTotalPages : Nat)
    (entries entriesLater : List (Bool × Nat × PDFChunk))
    (cur tmid tfire now : Nat) (s : SyncState)
    (hchange : nextPageTarget chunks documentTotalPages s.currentPage ≠ s.currentPage)
    (hmid : tmid < now + observerCooldownMs)
    (hfire : now + observerCooldownMs ≤ tfire) :
    observerRequest chunks documentTotalPages true entries cur = none ∧
    handleNextPageActions chunks documentTotalPages s.currentPage
      = [UiAction.setSuppress true,
         UiAction.applyPage (nextPageTarget chunks documentTotalPages s.currentPage),
         UiAction.scheduleScroll (nextPageTarget chunks documentTotalPages s.currentPage),
         UiAction.scheduleClearSuppress observerCooldownMs] ∧
    (∀ cur2, prevPageTarget chunks documentTotalPages cur2 ≠ cur2 →
        (handlePrevPageActions chunks documentTotalPages cur2).head?
          = some (UiAction.setSuppress true)) ∧
    (stepNextClick now chunks documentTotalPages s).suppress = true ∧
    (stepNextClick now chunks documentTotalPages s).clearAt
      = some (now + observerCooldownMs) ∧
    (stepClearTimer tmid (stepNextClick now chunks documentTotalPages s)).suppress
      = true ∧
    observerRequest chunks documentTotalPages
        (stepClearTimer tmid (stepNextClick now chunks documentTotalPages s)).suppress
        entries cur = none ∧
    (stepClearTimer tfire (stepNextClick now chunks documentTotalPages s)).suppress
      = false ∧
    observerRequest chunks documentTotalPages
        (stepClearTimer tfire (stepNextClick now chunks documentTotalPages s)).suppress
        entriesLater cur
      = observerRequest chunks documentTotalPages false entriesLater cur ∧
    (300 ≤ observerCooldownMs ∧ observerCooldownMs ≤ 400) := by
  have hnone : ∀ es : List (Bool × Nat × PDFChunk),
      observerRequest chunks documentTotalPages true es cur = none := by
    intro es
    unfold observerRequest
    simp
  have hclick : stepNextClick now chunks documentTotalPages s
      = { currentPage := nextPageTarget chunks documentTotalPages s.currentPage,
          suppress := true, clearAt := some (now + observerCooldownMs) } := by
    unfold stepNextClick
    simp [hchange]
  have hmidkeep : stepClearTimer tmid (stepNextClick now chunks documentTotalPages s)
      = stepNextClick now chunks documentTotalPages s := by
    rw [hclick]
    unfold stepClearTimer
    simp only
    rw [if_neg (by omega)]
  have hfiredone : (stepClearTimer tfire
      (stepNextClick now chunks documentTotalPages s)).suppress = false := by
    rw [hclick]
    unfold stepClearTimer
    simp only
    rw [if_pos hfire]
  refine ⟨hnone entries, ?_, ?_, ?_, ?_, ?_, ?_, hfiredone, ?_, by decide, by decide⟩
  · unfold handleNextPageActions
    simp [hchange]
  · intro cur2 hchange2
    unfold handlePrevPageActions
    simp [hchange2]
  · rw [hclick]
  · rw [hclick]
  · rw [hmidkeep, hclick]
  · rw [hmidkeep, hclick]
    exact hnone entries
  · rw [hfiredone]

/-- Witness for C6: a two-page document currently on page 1; clicking next
at time 0 suppresses observation, a batch arriving at time 399 yields no
request, and the timer firing at time 400 clears the flag. -/
theorem C6_suppression_window_witness :
    observerRequest [pageOneChunk, mixedChunkB] 0 true [] 1 = none ∧
    (stepNextClick 0 [pageOneChunk, mixedChunkB] 0
        { currentPage := 1, suppress := false, clearAt := none }).suppress = true ∧
    (stepClearTimer 399 (stepNextClick 0 [pageOneChunk, mixedChunkB] 0
        { currentPage := 1, suppress := false, clearAt := none })).suppress = true ∧
    (stepClearTimer 400 (stepNextClick 0 [pageOneChunk, mixedChunkB] 0
        { currentPage := 1, suppress := false, clearAt := none })).suppress = false := by
  have h := C6_suppression_window [pageOneChunk, mixedChunkB] 0 [] [] 1 399 400 0
      { currentPage := 1, suppress := false, clearAt := none }
      (by decide) (by decide) (by decide)
  exact ⟨h.1, h.2.2.2.1, h.2.2.2.2.2.1, h.2.2.2.2.2.2.2.1⟩

/-! ### Claims about the search session -/

/-- C7: with a non-empty stored match list, re-submitting the last executed
query keeps the match list and advances the cursor to
(cursor + 1) mod matchCount - one step, equal to cursor + 1 while that is
below matchCount and wrapping to 0 exactly when cursor + 1 reaches
matchCount - while submitting a different query recomputes the match list
as the case-insensitive substring matches of the chunk contents, resets the
cursor to 0, and navigates to the first match when one exists. -/
theorem C7_search_cursor_and_reset
    (chunks : List PDFChunk) (searchText : List Char) (s : SearchState)
    (hq : lowerChars (trimChars searchText) ≠ [])
    (hc : chunks ≠ []) :
    (lowerChars (trimChars searchText) = s.lastSearchQuery →
      s.searchResults ≠ [] →
        (handleSearchSubmit chunks searchText s).1.searchResults = s.searchResults ∧
        (handleSearchSubmit chunks searchText s).1.currentSearchIndex
          = (s.currentSearchIndex + 1) % (s.searchResults.length : Int) ∧
        (0 ≤ s.currentSearchIndex →
          s.currentSearchIndex + 1 < (s.searchResults.length : Int) →
            (handleSearchSubmit chunks searchText s).1.currentSearchIndex
              = s.currentSearchIndex + 1) ∧
        (s.currentSearchIndex + 1 = (s.searchResults.length : Int) →
            (handleSearchSubmit chunks searchText s).1.currentSearchIndex = 0)) ∧
    (lowerChars (trimChars searchText) ≠ s.lastSearchQuery →
        (handleSearchSubmit chunks searchText s).1.searchResults
          = chunks.filter (matchesQuery (lowerChars (trimChars searchText))) ∧
        (handleSearchSubmit chunks searchText s).1.currentSearchIndex = 0 ∧
        (handleSearchSubmit chunks searchText s).1.lastSearchQuery
          = lowerChars (trimChars searchText) ∧
        (∀ m ms,
          chunks.filter (matchesQuery (lowerChars (trimChars searchText))) = m :: ms →
            (handleSearchSubmit chunks searchText s).2 = some (m, 0))) := by
  obtain ⟨a, as, hcrw⟩ := List.exists_cons_of_ne_nil hc
  subst hcrw
  constructor
  · intro heq hres
    obtain ⟨m, ms, hrw⟩ := List.exists_cons_of_ne_nil hres
    have hlq : s.lastSearchQuery ≠ [] := by rw [← heq]; exact hq
    unfold handleSearchSubmit
    simp [hq, heq, hrw, hlq]
    refine ⟨fun h0 hlt => Int.emod_eq_of_lt (by omega) (by omega), fun hset => ?_⟩
    rw [hset]
  · intro hne
    unfold handleSearchSubmit
    simp only [hq, List.isEmpty_cons, Bool.or_false, ite_not]
    simp only [if_neg hne]
    rcases hf : (a :: as).filter (matchesQuery (lowerChars (trimChars searchText)))
        with _ | ⟨m, ms⟩
    · simp [hf, hne]
    · simp [hf, hne]

/-- Witness for C7: re-submitting the query hello (cursor 1 of 2 matches)
wraps the cursor to 0; submitting the new query WORLD recomputes the match
list to the single world chunk and navigates to it at cursor 0. -/
theorem C7_search_cursor_and_reset_witness :
    (handleSearchSubmit [helloChunk, worldChunk] " Hello ".data
        { searchResults := [helloChunk, worldChunk], currentSearchIndex := 1,
          lastSearchQuery := "hello".data, isSearching := false }).1.currentSearchIndex
      = 0 ∧
    (handleSearchSubmit [helloChunk, worldChunk] "WORLD".data
        { searchResults := [helloChunk, worldChunk], currentSearchIndex := 1,
          lastSearchQuery := "hello".data, isSearching := false }).1.searchResults
      = [worldChunk] ∧
    (handleSearchSubmit [helloChunk, worldChunk] "WORLD".data
        { searchResults := [helloChunk, worldChunk], currentSearchIndex := 1,
          lastSearchQuery := "hello".data, isSearching := false }).2
      = some (worldChunk, 0) := by
  have hsame := (C7_search_cursor_and_reset [helloChunk, worldChunk] " Hello ".data
      { searchResults := [helloChunk, worldChunk], currentSearchIndex := 1,
        lastSearchQuery := "hello".data, isSearching := false }
      (by decide) (by decide)).1 (by decide) (by decide)
  have hnew := (C7_search_cursor_and_reset [helloChunk, worldChunk] "WORLD".data
      { searchResults := [helloChunk, worldChunk], currentSearchIndex := 1,
        lastSearchQuery := "hello".data, isSearching := false }
      (by decide) (by decide)).2 (by decide)
  refine ⟨?_, ?_, ?_⟩
  · rw [hsame.2.1]
    decide
  · rw [hnew.1]
    decide
  · exact hnew.2.2.2 worldChunk [] (by decide)

/-- C8: a submission whose query (non-empty, over a non-empty chunk list)
matches no chunk performs no navigation, leaves the current page unchanged,
leaves the session with an empty match list, and clears the isSearching
flag.  The session-consistency hypothesis reflects the component invariant
that the stored match list is the one computed for the last executed
query. -/
theorem C8_no_match_leaves_page
    (chunks : List PDFChunk) (searchText : List Char) (s : SearchState)
    (documentTotalPages cur : Nat)
    (hq : lowerChars (trimChars searchText) ≠ [])
    (hc : chunks ≠ [])
    (hmatch : chunks.filter (matchesQuery (lowerChars (trimChars searchText))) = [])
    (hsession : lowerChars (trimChars searchText) = s.lastSearchQuery →
        s.searchResults = []) :
    (handleSearchSubmit chunks searchText s).2 = none ∧
    pageAfterSearch chunks documentTotalPages cur
        (handleSearchSubmit chunks searchText s).2 = cur ∧
    (handleSearchSubmit chunks searchText s).1.searchResults = [] ∧
    (handleSearchSubmit chunks searchText s).1.isSearching = false := by
  obtain ⟨a, as, hcrw⟩ := List.exists_cons_of_ne_nil hc
  subst hcrw
  by_cases heq : lowerChars (trimChars searchText) = s.lastSearchQuery
  · have hres := hsession heq
    have hlq : s.lastSearchQuery ≠ [] := by rw [← heq]; exact hq
    unfold handleSearchSubmit
    simp [hq, heq, hres, hlq, pageAfterSearch]
  · unfold handleSearchSubmit
    simp [hq, heq, hmatch, pageAfterSearch]

/-- Witness for C8: searching xyz over the hello chunk finds nothing, keeps
page 4, stores an empty match list, and ends with isSearching false. -/
theorem C8_no_match_leaves_page_witness :
    (handleSearchSubmit [helloChunk] "xyz".data
        { searchResults := [], currentSearchIndex := -1,
          lastSearchQuery := [], isSearching := false }).2 = none ∧
    pageAfterSearch [helloChunk] 0 4
        (handleSearchSubmit [helloChunk] "xyz".data
          { searchResults := [], currentSearchIndex := -1,
            lastSearchQuery := [], isSearching := false }).2 = 4 ∧
    (handleSearchSubmit [helloChunk] "xyz".data
        { searchResults := [], currentSearchIndex := -1,
          lastSearchQuery := [], isSearching := false }).1.searchResults = [] := by
  have h := C8_no_match_leaves_page [helloChunk] "xyz".data
      { searchResults := [], currentSearchIndex := -1,
        lastSearchQuery := [], isSearching := false } 0 4
      (by decide) (by decide) (by decide) (fun h => absurd h (by decide))
  exact ⟨h.1, h.2.1, h.2.2.1⟩

/-! ### Claim about the external window bridge -/

/-- C10: when the stored external window reference is live (its closed flag
re-checked at request time is false), the request posts exactly one
changePage message, opens no window, focuses the existing window, and keeps
the stored reference; when the stored window has been closed, the next
request attempts exactly one window open, posts no message, and (when the
popup is not blocked) stores the fresh reference. -/
theorem C10_reuse_and_reopen
    (w nw : ExtWindow) (page : Nat) (highlight : List String)
    (snippet : Option String) (popupResult : Option ExtWindow)
    (hlive : w.closed = false) :
    ((handleReferenceClick (some w) page highlight snippet popupResult).1.countP
        isPostChangePage = 1 ∧
     (handleReferenceClick (some w) page highlight snippet popupResult).1.countP
        isOpenWindow = 0 ∧
     BridgeAction.focusExisting
        ∈ (handleReferenceClick (some w) page highlight snippet popupResult).1 ∧
     (handleReferenceClick (some w) page highlight snippet popupResult).2 = some w) ∧
    (∀ wc : ExtWindow, wc.closed = true →
     (handleReferenceClick (some wc) page highlight snippet (some nw)).1.countP
        isOpenWindow = 1 ∧
     (handleReferenceClick (some wc) page highlight snippet (some nw)).1.countP
        isPostChangePage = 0 ∧
     (handleReferenceClick (some wc) page highlight snippet (some nw)).2 = some nw) := by
  constructor
  · unfold handleReferenceClick
    simp [hlive, isPostChangePage, isOpenWindow, List.countP_cons, List.countP_nil]
  · intro wc hwc
    unfold handleReferenceClick
    simp [hwc, isPostChangePage, isOpenWindow, List.countP_cons, List.countP_nil]

/-- Witness for C10: a live window (closed = false) receives one changePage
message and no open; after the window closes, the next request performs one
open and stores the fresh reference. -/
theorem C10_reuse_and_reopen_witness :
    (handleReferenceClick (some { closed := false }) 3 [] none none).1.countP
        isPostChangePage = 1 ∧
    (handleReferenceClick (some { closed := false }) 3 [] none none).1.countP
        isOpenWindow = 0 ∧
    (handleReferenceClick (some { closed := true }) 3 [] none
        (some { closed := false })).1.countP isOpenWindow = 1 ∧
    (handleReferenceClick (some { closed := true }) 3 [] none
        (some { closed := false })).2 = some { closed := false } := by
  have h := C10_reuse_and_reopen { closed := false } { closed := false } 3 [] none none rfl
  exact ⟨h.1.1, h.1.2.1, (h.2 { closed := true } rfl).1, (h.2 { closed := true } rfl).2.2⟩

end Chat7v
